import Mathlib

/-!
Verification of the SQL-agent orchestration pipeline
(`src/agents/sql_agent/sql_agent.py`) against its natural-language
specification.

The pipeline is a langgraph `StateGraph` over a `State` TypedDict.  We embed
the node functions, the conditional-edge functions and the graph wiring as
executable Lean definitions.  External collaborators (the LLM backend, the
database executor, the vector store, matplotlib) are black boxes specified
only at their interface boundary; they appear here as explicit function
parameters ("oracles"), so that every theorem quantifies over all possible
collaborator behaviours, and counterexamples instantiate them concretely.
-/

namespace SQLAgent

/-- Boolean prefix test on character lists (the semantics of Python's
`str.startswith`, which compares by characters, as Lean `String.take` /
`String.length` also do). -/
def charsStartWith : List Char → List Char → Bool
  | _, [] => true
  | [], _ :: _ => false
  | c :: cs, p :: ps => c == p && charsStartWith cs ps

/-- Python `s.startswith(p)`, embedded via `charsStartWith`. -/
def strStartsWith (s p : String) : Bool :=
  charsStartWith s.data p.data

theorem charsStartWith_append (a b p : List Char)
    (h : charsStartWith a p = true) : charsStartWith (a ++ b) p = true := by
  induction p generalizing a with
  | nil => simp [charsStartWith]
  | cons d ds ih =>
    cases a with
    | nil => simp [charsStartWith] at h
    | cons c cs =>
      simp only [charsStartWith, List.cons_append, Bool.and_eq_true] at h ⊢
      exact ⟨h.1, ih cs h.2⟩

theorem strStartsWith_append (x y p : String)
    (h : strStartsWith x p = true) : strStartsWith (x ++ y) p = true := by
  unfold strStartsWith at h ⊢
  rw [String.data_append]
  exact charsStartWith_append x.data y.data p.data h

/-- The literal message prepended by `db_query_tool` when the executor
reports failure (verbatim from the source). -/
def query_failed_header : String :=
  "Error: Query failed. Please rewrite your query and try again." ++ "\n\nDetails:"

/-- Embedding of `db_query_tool` (sql_agent.py lines 140-153).  `dbRun`
models the black-box `db.run_no_throw`, whose contract (spec section 6) is to
return either the textual result or a payload starting with "Error: ".

Python source: run the query; if the result starts with "Error:", return the
failure header concatenated with the result; else if its length exceeds 2000,
return the first 2000 characters plus "..."; else return it unchanged. -/
def db_query_tool (dbRun : String → String) (query : String) : String :=
  let result := dbRun query
  if strStartsWith result "Error:" then
    query_failed_header ++ result
  else if result.length > 2000 then
    result.take 2000 ++ "..."
  else
    result

/-- Claim C4: for every SQL statement passed to the query-execution tool, if
the underlying executor reports failure (an "Error:"-tagged result), the tool
returns a payload prefixed with the literal tag "Error:" carrying the
database's error text; if it succeeds and the result exceeds 2000 characters,
the tool returns exactly the first 2000 characters followed by the ellipsis
marker "..."; otherwise it returns the result unchanged. -/
theorem db_query_tool_contract (dbRun : String → String) (q : String) :
    (strStartsWith (dbRun q) "Error:" = true →
      db_query_tool dbRun q = query_failed_header ++ dbRun q ∧
      strStartsWith (db_query_tool dbRun q) "Error:" = true) ∧
    (strStartsWith (dbRun q) "Error:" = false → 2000 < (dbRun q).length →
      db_query_tool dbRun q = (dbRun q).take 2000 ++ "...") ∧
    (strStartsWith (dbRun q) "Error:" = false → (dbRun q).length ≤ 2000 →
      db_query_tool dbRun q = dbRun q) := by
  refine ⟨fun herr => ?_, fun herr hlen => ?_, fun herr hlen => ?_⟩
  · constructor
    · simp [db_query_tool, herr]
    · simp only [db_query_tool, herr, if_true]
      exact strStartsWith_append query_failed_header (dbRun q) "Error:" (by decide)
  · simp [db_query_tool, herr, hlen]
  · simp [db_query_tool, herr, Nat.not_lt.mpr hlen]

theorem db_query_tool_contract_witness :
    (strStartsWith ((fun (_ : String) => "Error: no such table") "SELECT 1") "Error:" = true ∧
      db_query_tool (fun _ => "Error: no such table") "SELECT 1" =
        query_failed_header ++ "Error: no such table") ∧
    (strStartsWith ((fun (_ : String) => "ok") "SELECT 1") "Error:" = false ∧
      ((fun (_ : String) => "ok") "SELECT 1").length ≤ 2000 ∧
      db_query_tool (fun _ => "ok") "SELECT 1" = "ok") :=
  ⟨⟨by decide,
    ((db_query_tool_contract (fun _ => "Error: no such table") "SELECT 1").1 (by decide)).1⟩,
   ⟨by decide, by decide,
    (db_query_tool_contract (fun _ => "ok") "SELECT 1").2.2 (by decide) (by decide)⟩⟩

/-- Claim C10: the 2000-character truncation applies only to successful
execution results.  The tool tests the "Error:" tag before the length cap, so
a failing query yields the full wrapped error payload untruncated regardless
of its length: the output is exactly the header plus the entire error text,
its length is the header's length plus the error text's length (nothing is
dropped), and in particular when the error text itself exceeds 2000
characters the output still exceeds 2000 characters (no cap, no ellipsis
suffix is appended by the tool). -/
theorem db_query_tool_error_untruncated (dbRun : String → String) (q : String)
    (herr : strStartsWith (dbRun q) "Error:" = true) :
    db_query_tool dbRun q = query_failed_header ++ dbRun q ∧
    (db_query_tool dbRun q).length = query_failed_header.length + (dbRun q).length ∧
    (2000 < (dbRun q).length → 2000 < (db_query_tool dbRun q).length) := by
  have heq : db_query_tool dbRun q = query_failed_header ++ dbRun q := by
    simp [db_query_tool, herr]
  refine ⟨heq, ?_, ?_⟩
  · rw [heq, String.length_append]
  · intro hlen
    rw [heq, String.length_append]
    omega

theorem db_query_tool_error_untruncated_witness :
    strStartsWith ((fun (_ : String) => "Error: bad column") "SELECT 1") "Error:" = true ∧
    db_query_tool (fun _ => "Error: bad column") "SELECT 1" =
      query_failed_header ++ "Error: bad column" :=
  ⟨by decide,
   (db_query_tool_error_untruncated (fun _ => "Error: bad column") "SELECT 1" (by decide)).1⟩

/-! ## Messages and session state

The langgraph `State` TypedDict and the message log.  `add_messages` makes
the `messages` channel append-only; every node returns a patch whose
`messages` entry is appended, while scalar fields are overwritten.  Our node
embeddings perform that merge directly. -/

/-- A message in the conversation log. `aiToolCalls` models an `AIMessage`
carrying `get_schema_tool` tool calls (one table name per call), as emitted
by the table selector; `aiChartCall` models an `AIMessage` carrying a chart
tool call, as emitted by `chart_generation`. -/
inductive Msg where
  | ai (content : String)
  | aiToolCalls (content : String) (tables : List String)
  | aiChartLine (x y : List Int) (title xLabel yLabel : String)
  | aiChartBar (categories : List String) (values : List Int) (title xLabel yLabel : String)
  | human (content : String)
  | tool (content : String)
deriving Repr, DecidableEq

def Msg.content : Msg → String
  | .ai c => c
  | .aiToolCalls c _ => c
  | .aiChartLine _ _ _ _ _ => ""
  | .aiChartBar _ _ _ _ _ => ""
  | .human c => c
  | .tool c => c

def Msg.isTool : Msg → Bool
  | .tool _ => true
  | _ => false

/-- The `State` TypedDict of the graph (sql_agent.py lines 66-75).
`max_retries` is an `Int` because Python integers are unbounded and the
claims concern negativity. -/
structure State where
  question : String
  messages : List Msg
  information : String
  sufficient_info : Bool
  max_retries : Int
  query : String
  chart_type : String
  answer : String
deriving Repr, DecidableEq

/-! ## Context retrieval (`get_context`, lines 274-314) -/

/-- One candidate returned by `retrieve_contexts`: a cached exemplar with a
stable numeric id, its past question (`query`) and its supporting context. -/
structure ContextDoc where
  id : Nat
  query : String
  context : String
deriving Repr, DecidableEq

/-- The `id_to_context` Python dict built in `get_context`
(`for doc in context: id_to_context[id] = context`); a later doc with the
same id overwrites an earlier one, hence the reversed search. -/
def id_to_context (docs : List ContextDoc) (i : Nat) : Option String :=
  (docs.reverse.find? (fun d => d.id == i)).map (fun d => d.context)

/-- One step of the concatenation loop of `get_context`
(`doc = id_to_context[id]; information += f"..."`).  A missing key raises
`KeyError` in Python, which nothing in the pipeline catches; we model that as
`Except.error`. -/
def lookup_step (docs : List ContextDoc) (info : String) (i : Nat) : Except String String :=
  match id_to_context docs i with
  | some doc => Except.ok (info ++ doc ++ "\n\n")
  | none => Except.error ("KeyError: " ++ toString i)

/-- The concatenation loop of `get_context`
(`for id in response.ids: ... information += f"..."`), short-circuiting at
the first missing id exactly as the raised `KeyError` would. -/
def build_information (docs : List ContextDoc) (ids : List Nat) : Except String String :=
  ids.foldlM (lookup_step docs) ""

/-- The `get_context` node.  `selectIds` models the black-box reranking LLM
(`relevant_questions_selector_llm`): from the presented candidates it returns
a list of ids.  Zero candidates short-circuit before any LLM call. -/
def get_context_node (docs : List ContextDoc)
    (selectIds : List ContextDoc → List Nat) (s : State) : Except String State :=
  if docs.isEmpty then
    Except.ok { s with messages := s.messages ++ [Msg.ai "No context found"], information := "" }
  else
    match build_information docs (selectIds docs) with
    | Except.ok info =>
        Except.ok { s with information := info,
                           messages := s.messages ++ [Msg.ai ("Retrieved Context: " ++ info)] }
    | Except.error e => Except.error e

/-- Conditional-edge function `sufficient_context` (lines 472-477): Python
`if information:` is the non-empty-string truthiness test. -/
def sufficient_context (s : State) : String :=
  if s.information ≠ "" then "query_gen_with_context" else "info_sql_database_tool_call"

/-- The mapping given to `workflow.add_conditional_edges("get_context", ...)`
(lines 574-581).  Verbatim from the source: the label
"info_sql_database_tool_call" is mapped to `END`, and
"query_gen_with_context" to the node of the same name. -/
def get_context_edge_target (label : String) : String :=
  if label = "info_sql_database_tool_call" then "END"
  else if label = "query_gen_with_context" then "query_gen_with_context"
  else "INVALID_LABEL"

/-- A session state as it stands when `get_context` runs (after
`transform_user_question`, which set `max_retries := 1`). -/
def preContextState : State :=
  { question := "How many purchase orders were issued in 2023?"
    messages := [Msg.human "q", Msg.ai "How many purchase orders were issued in 2023?"]
    information := ""
    sufficient_info := true
    max_retries := 1
    query := ""
    chart_type := ""
    answer := "" }

/-- Claim C2 is FALSE on the code: with zero cached exemplars the
`information` field stays empty and `sufficient_context` returns the label
"info_sql_database_tool_call", but the edge mapping registered for
`get_context` sends that label to `END`, so the pipeline terminates instead
of entering the from-scratch schema-discovery path
(`info_sql_database_tool_call` node and onward to the table selector). -/
theorem get_context_empty_routes_to_END :
    (get_context_node [] (fun _ => []) preContextState =
      Except.ok { preContextState with
                    messages := preContextState.messages ++ [Msg.ai "No context found"],
                    information := "" }) ∧
    sufficient_context { preContextState with information := "" } = "info_sql_database_tool_call" ∧
    get_context_edge_target "info_sql_database_tool_call" = "END" ∧
    "END" ≠ "info_sql_database_tool_call" := by
  refine ⟨rfl, rfl, rfl, ?_⟩
  decide

/-- Claim C2 (amended): for every session where context retrieval returns
zero cached exemplars, `get_context` succeeds (a normal, non-error outcome)
leaving `information` empty, the conditional edge returns the label
"info_sql_database_tool_call", and the graph's edge mapping routes that label
to `END`: the pipeline terminates normally rather than entering the
schema-discovery path. -/
theorem get_context_empty_normal_termination (selectIds : List ContextDoc → List Nat)
    (s : State) :
    get_context_node [] selectIds s =
      Except.ok { s with messages := s.messages ++ [Msg.ai "No context found"],
                         information := "" } ∧
    sufficient_context { s with information := "" } = "info_sql_database_tool_call" ∧
    get_context_edge_target
      (sufficient_context { s with information := "" }) = "END" := by
  exact ⟨rfl, rfl, rfl⟩

theorem id_to_context_isSome (docs : List ContextDoc) (i : Nat) :
    (id_to_context docs i).isSome = true ↔ ∃ d ∈ docs, d.id = i := by
  simp [id_to_context, List.find?_isSome, List.mem_reverse]

/-- Claim C9: the lookup `id_to_context[id]` in `get_context` succeeds for
every returned id exactly when every returned id is among the ids of the
candidates fetched from the Context Store; any id outside that set raises an
unhandled `KeyError` (modelled as `Except.error`), failing the run. -/
theorem build_information_ok_iff (docs : List ContextDoc) (ids : List Nat) :
    (∃ info, build_information docs ids = Except.ok info) ↔
      (∀ i ∈ ids, ∃ d ∈ docs, d.id = i) := by
  have key : ∀ (l : List Nat) (acc : String),
      (∃ info, l.foldlM (lookup_step docs) acc = Except.ok info) ↔
        (∀ i ∈ l, ∃ d ∈ docs, d.id = i) := by
    intro l
    induction l with
    | nil =>
      intro acc
      simp only [List.foldlM_nil, List.not_mem_nil, false_implies, implies_true, iff_true]
      exact ⟨acc, rfl⟩
    | cons i rest ih =>
      intro acc
      rcases hfind : id_to_context docs i with _ | doc
      · have hnone : ¬ ∃ d ∈ docs, d.id = i := by
          rw [← id_to_context_isSome, hfind]
          simp
        have hstep : lookup_step docs acc i = Except.error ("KeyError: " ++ toString i) := by
          simp [lookup_step, hfind]
        have hrun : (i :: rest).foldlM (lookup_step docs) acc =
            Except.error ("KeyError: " ++ toString i) := by
          rw [List.foldlM_cons, hstep]
          rfl
        simp [hrun, List.forall_mem_cons, hnone]
      · have hsome : ∃ d ∈ docs, d.id = i := by
          rw [← id_to_context_isSome, hfind]
          rfl
        have hstep : lookup_step docs acc i = Except.ok (acc ++ doc ++ "\n\n") := by
          simp [lookup_step, hfind]
        have hrun : (i :: rest).foldlM (lookup_step docs) acc =
            rest.foldlM (lookup_step docs) (acc ++ doc ++ "\n\n") := by
          rw [List.foldlM_cons, hstep]
          rfl
        simp [hrun, List.forall_mem_cons, hsome, ih]
  simpa [build_information] using key ids ""

theorem build_information_ok_iff_witness :
    (∃ info, build_information [⟨3, "past question", "past context"⟩] [3] = Except.ok info) ∧
    ¬ (∃ info, build_information [⟨3, "past question", "past context"⟩] [4] = Except.ok info) :=
  ⟨(build_information_ok_iff [⟨3, "past question", "past context"⟩] [3]).mpr (by simp),
   fun h => by
    have := (build_information_ok_iff [⟨3, "past question", "past context"⟩] [4]).mp h
    simp at this⟩

/-! ## The sufficiency loop: table selector, schema fetch, contextualiser,
sufficiency gate (lines 316-360, 509-515, 583-595)

The loop body is the node chain
`tables_selector → get_schema_tool → contextualiser → sufficient_tables`,
closed by the conditional edge `continue_sufficient_tables`.  The LLM calls
are oracles: `propose` for the selector's tool-calling model, `schemaOf` for
the deterministic schema service, `summarize` for the contextualiser model,
and one `(decision, reason)` pair per gate invocation. -/

/-- Node `tables_selector` (`selector`, lines 316-328): reads the previous
gate verdict (`state.get("sufficient_info", True)`), decrements
`max_retries` when it was insufficient, and asks the tool-bound model for
table selections (tool calls on `get_schema_tool`). -/
def selector_node (propose : State → List String) (s : State) : State :=
  let max_retries := if s.sufficient_info then s.max_retries else s.max_retries - 1
  { s with messages := s.messages ++ [Msg.aiToolCalls "" (propose s)],
           max_retries := max_retries }

/-- Node `get_schema_tool` (tool node over `get_schema_tool`, lines 168-178):
each proposed table name in the last message's tool calls is resolved to
"Selected Table <name>\n\nSchema: <schema>".  `schemaOf` models the
(deterministic) `sql_db_schema` toolkit call with comments stripped. -/
def get_schema_tool_node (schemaOf : String → String) (s : State) : State :=
  match s.messages.getLast? with
  | some (Msg.aiToolCalls _ tables) =>
      { s with messages := s.messages ++ tables.map (fun name =>
          Msg.tool ("Selected Table " ++ name ++ "\n\nSchema: " ++ schemaOf name)) }
  | _ => s

/-- The contents of all ToolMessages in the log, in order
(`[message.content for message in state["messages"] if isinstance(message, ToolMessage)]`). -/
def tool_contents (msgs : List Msg) : List String :=
  (msgs.filter Msg.isTool).map Msg.content

/-- The `unique_tool_calls` set built in `contextualiser` (line 332):
Python `set(...)` keeps each distinct content once; we model it as a
duplicate-free list (Python set iteration order is unspecified, so only
membership is meaningful). -/
def unique_tool_calls (msgs : List Msg) : List String :=
  (tool_contents msgs).dedup

/-- Node `contextualiser` (lines 330-344): presents the question and the
deduplicated tool-message evidence to the model and wholly replaces
`information` with the model's response. -/
def contextualiser_node (summarize : String → List String → String) (s : State) : State :=
  let information := summarize s.question (unique_tool_calls s.messages)
  { s with messages := s.messages ++ [Msg.ai information], information := information }

/-- Node `sufficient_tables` (lines 347-360): records the gate's verdict in
`sufficient_info` and logs it. -/
def sufficient_tables_node (verdict : Bool × String) (s : State) : State :=
  { s with
    messages := s.messages ++
      [Msg.ai ("Sufficient Tables: " ++ toString verdict.1 ++ "\n\nReason: " ++ verdict.2)]
    sufficient_info := verdict.1 }

/-- Conditional-edge function `continue_sufficient_tables` (lines 509-515). -/
def continue_sufficient_tables (s : State) : String :=
  if s.sufficient_info || s.max_retries == 0 then "query_gen" else "selector"

/-- One pass of the sufficiency loop:
`tables_selector → get_schema_tool → contextualiser → sufficient_tables`. -/
def sufficiency_iteration (propose : State → List String) (schemaOf : String → String)
    (summarize : String → List String → String) (verdict : Bool × String) (s : State) : State :=
  sufficient_tables_node verdict
    (contextualiser_node summarize (get_schema_tool_node schemaOf (selector_node propose s)))

/-- Result of running the sufficiency loop: the final state, the label the
conditional edge exited with ("query_gen", or the marker "out_of_verdicts"
when the supplied gate-verdict sequence was exhausted while the edge still
said "selector"), and the value of `max_retries` observed at the end of each
completed iteration. -/
structure LoopResult where
  state : State
  label : String
  retriesTrace : List Int
deriving Repr, DecidableEq

/-- The sufficiency loop, driven by one gate verdict per iteration. -/
def sufficiency_loop (propose : State → List String) (schemaOf : String → String)
    (summarize : String → List String → String) :
    List (Bool × String) → State → LoopResult
  | [], s => { state := s, label := "out_of_verdicts", retriesTrace := [] }
  | v :: vs, s =>
    let s' := sufficiency_iteration propose schemaOf summarize v s
    if continue_sufficient_tables s' = "selector" then
      let r := sufficiency_loop propose schemaOf summarize vs s'
      { r with retriesTrace := s'.max_retries :: r.retriesTrace }
    else
      { state := s', label := continue_sufficient_tables s', retriesTrace := [s'.max_retries] }

theorem selector_node_max_retries (propose : State → List String) (s : State) :
    (selector_node propose s).max_retries =
      if s.sufficient_info then s.max_retries else s.max_retries - 1 := rfl

theorem selector_node_sufficient_info (propose : State → List String) (s : State) :
    (selector_node propose s).sufficient_info = s.sufficient_info := rfl

theorem sufficiency_iteration_max_retries (propose : State → List String)
    (schemaOf : String → String) (summarize : String → List String → String)
    (v : Bool × String) (s : State) :
    (sufficiency_iteration propose schemaOf summarize v s).max_retries =
      if s.sufficient_info then s.max_retries else s.max_retries - 1 := by
  unfold sufficiency_iteration sufficient_tables_node contextualiser_node
    get_schema_tool_node selector_node
  cases h : (s.messages ++ [Msg.aiToolCalls "" (propose s)]).getLast? with
  | none => simp [h]
  | some m => cases m <;> simp [h]

theorem sufficiency_iteration_sufficient_info (propose : State → List String)
    (schemaOf : String → String) (summarize : String → List String → String)
    (v : Bool × String) (s : State) :
    (sufficiency_iteration propose schemaOf summarize v s).sufficient_info = v.1 := by
  unfold sufficiency_iteration sufficient_tables_node contextualiser_node
    get_schema_tool_node selector_node
  cases h : (s.messages ++ [Msg.aiToolCalls "" (propose s)]).getLast? with
  | none => simp [h]
  | some m => cases m <;> simp [h]

theorem continue_of_iteration (propose : State → List String) (schemaOf : String → String)
    (summarize : String → List String → String) (v : Bool × String) (s : State) :
    continue_sufficient_tables (sufficiency_iteration propose schemaOf summarize v s) =
      if v.1 || ((if s.sufficient_info then s.max_retries else s.max_retries - 1) == 0)
      then "query_gen" else "selector" := by
  unfold continue_sufficient_tables
  rw [sufficiency_iteration_max_retries, sufficiency_iteration_sufficient_info]

/-- Claim C5: within the sufficiency loop of every session starting with
`max_retries = 1` (as set by `transform_user_question`) and the initial
`sufficient_info` default `True`, for every sequence of Sufficiency Gate
verdicts: (i) the retry counter observed after each iteration never goes
negative; (ii) the loop never exits with the label "selector", and whenever
at least two verdicts are available it exits with the give-up label
"query_gen" (proceeding to query generation with the accumulated evidence);
(iii) if every verdict is sufficient the counter is never decremented; and
(iv) after a first insufficient verdict followed by any further verdict the
counter trace is exactly [1, 0] — one decrement per insufficient re-entry,
stopping at 0. -/
theorem sufficiency_loop_budget_invariant (propose : State → List String)
    (schemaOf : String → String) (summarize : String → List String → String)
    (verdicts : List (Bool × String)) (s : State)
    (hmr : s.max_retries = 1) (hsuff : s.sufficient_info = true) :
    (∀ mr ∈ (sufficiency_loop propose schemaOf summarize verdicts s).retriesTrace, 0 ≤ mr) ∧
    (sufficiency_loop propose schemaOf summarize verdicts s).label ≠ "selector" ∧
    (2 ≤ verdicts.length →
      (sufficiency_loop propose schemaOf summarize verdicts s).label = "query_gen") ∧
    ((∀ v ∈ verdicts, v.1 = true) →
      (sufficiency_loop propose schemaOf summarize verdicts s).state.max_retries = 1) ∧
    (∀ v₁ v₂ vs, verdicts = v₁ :: v₂ :: vs → v₁.1 = false →
      (sufficiency_loop propose schemaOf summarize verdicts s).retriesTrace = [1, 0]) := by
  match verdicts with
  | [] =>
    refine ⟨by simp [sufficiency_loop], by simp [sufficiency_loop], by simp, ?_, by simp⟩
    intro _
    simpa [sufficiency_loop] using hmr
  | [(b₁, r₁)] =>
    have hc := continue_of_iteration propose schemaOf summarize (b₁, r₁) s
    rw [hsuff, hmr] at hc
    cases b₁ with
    | true =>
      have hexit : continue_sufficient_tables
          (sufficiency_iteration propose schemaOf summarize (true, r₁) s) = "query_gen" := by
        simpa using hc
      refine ⟨?_, ?_, by simp, ?_, by simp⟩ <;>
        simp [sufficiency_loop, hexit, sufficiency_iteration_max_retries, hsuff, hmr]
    | false =>
      have hsel : continue_sufficient_tables
          (sufficiency_iteration propose schemaOf summarize (false, r₁) s) = "selector" := by
        simpa using hc
      refine ⟨?_, ?_, by simp, ?_, by simp⟩ <;>
        simp [sufficiency_loop, hsel, sufficiency_iteration_max_retries, hsuff, hmr]
  | (b₁, r₁) :: (b₂, r₂) :: vs =>
    have hc := continue_of_iteration propose schemaOf summarize (b₁, r₁) s
    rw [hsuff, hmr] at hc
    cases b₁ with
    | true =>
      have hexit : continue_sufficient_tables
          (sufficiency_iteration propose schemaOf summarize (true, r₁) s) = "query_gen" := by
        simpa using hc
      refine ⟨?_, ?_, ?_, ?_, ?_⟩ <;>
        simp [sufficiency_loop, hexit, sufficiency_iteration_max_retries, hsuff, hmr]
    | false =>
      have hsel : continue_sufficient_tables
          (sufficiency_iteration propose schemaOf summarize (false, r₁) s) = "selector" := by
        simpa using hc
      have hs₁mr : (sufficiency_iteration propose schemaOf summarize (false, r₁) s).max_retries = 1 := by
        rw [sufficiency_iteration_max_retries, hsuff, hmr]
        rfl
      have hs₁suff : (sufficiency_iteration propose schemaOf summarize (false, r₁) s).sufficient_info = false :=
        sufficiency_iteration_sufficient_info propose schemaOf summarize (false, r₁) s
      have hc₂ := continue_of_iteration propose schemaOf summarize (b₂, r₂)
        (sufficiency_iteration propose schemaOf summarize (false, r₁) s)
      rw [hs₁suff, hs₁mr] at hc₂
      have hexit₂ : continue_sufficient_tables
          (sufficiency_iteration propose schemaOf summarize (b₂, r₂)
            (sufficiency_iteration propose schemaOf summarize (false, r₁) s)) = "query_gen" := by
        simp at hc₂
        simpa using hc₂
      have hmr₂ : (sufficiency_iteration propose schemaOf summarize (b₂, r₂)
          (sufficiency_iteration propose schemaOf summarize (false, r₁) s)).max_retries = 0 := by
        rw [sufficiency_iteration_max_retries, hs₁suff, hs₁mr]
        rfl
      refine ⟨?_, ?_, ?_, ?_, ?_⟩ <;>
        simp [sufficiency_loop, hsel, hexit₂, hs₁mr, hmr₂]

theorem sufficiency_loop_budget_invariant_witness :
    preContextState.max_retries = 1 ∧ preContextState.sufficient_info = true ∧
    (sufficiency_loop (fun _ => ["purchase_orders"]) (fun _ => "cols") (fun _ _ => "brief")
      [(false, "missing join table"), (true, "")] preContextState).label = "query_gen" :=
  ⟨rfl, rfl,
    (sufficiency_loop_budget_invariant (fun _ => ["purchase_orders"]) (fun _ => "cols")
      (fun _ _ => "brief") [(false, "missing join table"), (true, "")] preContextState
      rfl rfl).2.2.1 (by simp)⟩

/-! ## Claim C6: table re-selection across sufficiency-loop iterations -/

/-- The table-name lists proposed by the selector, one entry per selector
invocation (the tool calls of its `aiToolCalls` messages, in log order). -/
def proposals (msgs : List Msg) : List (List String) :=
  msgs.filterMap (fun m =>
    match m with
    | Msg.aiToolCalls _ tables => some tables
    | _ => none)

/-- The property claimed by C6: no selector invocation proposes a table name
already proposed by an earlier invocation of the same session. -/
def selectorNeverRepeats (msgs : List Msg) : Prop :=
  (proposals msgs).Pairwise (fun earlier later => ∀ n ∈ later, n ∉ earlier)

/-- Claim C6 is FALSE on the code: the `selector` node applies no
de-duplication or exclusion of already-selected tables — the exclusion lives
only in the LLM prompt text.  With a (perfectly contract-conforming,
spec section 6 places no such constraint on the model) selector model that
proposes `purchase_orders` on every call, the loop's second iteration
re-proposes the table selected in the first. -/
theorem selector_repeats_counterexample :
    proposals (sufficiency_loop (fun _ => ["purchase_orders"]) (fun _ => "cols")
        (fun _ _ => "brief") [(false, "need more"), (false, "still missing")]
        preContextState).state.messages = [["purchase_orders"], ["purchase_orders"]] ∧
    ¬ selectorNeverRepeats (sufficiency_loop (fun _ => ["purchase_orders"]) (fun _ => "cols")
        (fun _ _ => "brief") [(false, "need more"), (false, "still missing")]
        preContextState).state.messages := by
  have h : proposals (sufficiency_loop (fun _ => ["purchase_orders"]) (fun _ => "cols")
      (fun _ _ => "brief") [(false, "need more"), (false, "still missing")]
      preContextState).state.messages = [["purchase_orders"], ["purchase_orders"]] := by
    decide
  refine ⟨h, fun hcontra => ?_⟩
  rw [selectorNeverRepeats, h] at hcontra
  exact (List.pairwise_cons.mp hcontra).1 ["purchase_orders"] (by simp) "purchase_orders"
    (by simp) (by simp)

/-- Claim C6 (amended): the selector itself can re-propose an
already-selected table (the exclusion is only an instruction to the LLM);
what the implementation does enforce is de-duplication of the gathered
schema evidence by message content in the `contextualiser`: the evidence
list contains each distinct ToolMessage content exactly once, membership is
exactly ToolMessage membership in the log, and appending a ToolMessage whose
content is already present (as a re-selected table's schema fetch produces,
the schema service being deterministic in the table name) leaves the
evidence set unchanged. -/
theorem contextualiser_dedups_by_content (msgs : List Msg) (c : String) :
    (unique_tool_calls msgs).Nodup ∧
    (c ∈ unique_tool_calls msgs ↔ Msg.tool c ∈ msgs) ∧
    (Msg.tool c ∈ msgs →
      ∀ x, x ∈ unique_tool_calls (msgs ++ [Msg.tool c]) ↔ x ∈ unique_tool_calls msgs) := by
  have hmem : ∀ (ms : List Msg) (a : String), a ∈ tool_contents ms ↔ Msg.tool a ∈ ms := by
    intro ms a
    constructor
    · intro h
      obtain ⟨m, hm, ha⟩ := List.mem_map.mp h
      obtain ⟨hmem', htool⟩ := List.mem_filter.mp hm
      cases m <;> simp [Msg.isTool] at htool
      cases ha
      exact hmem'
    · intro h
      exact List.mem_map.mpr ⟨Msg.tool a, List.mem_filter.mpr ⟨h, rfl⟩, rfl⟩
  refine ⟨List.nodup_dedup _, ?_, ?_⟩
  · rw [unique_tool_calls, List.mem_dedup]
    exact hmem msgs c
  · intro hdup x
    have happ : tool_contents (msgs ++ [Msg.tool c]) = tool_contents msgs ++ [c] := by
      simp [tool_contents, List.filter_append, Msg.isTool, Msg.content]
    rw [unique_tool_calls, unique_tool_calls, List.mem_dedup, List.mem_dedup, happ,
      List.mem_append]
    constructor
    · rintro (hx | hx)
      · exact hx
      · simp only [List.mem_singleton] at hx
        subst hx
        exact (hmem msgs x).mpr hdup
    · exact fun hx => Or.inl hx

theorem contextualiser_dedups_by_content_witness :
    Msg.tool "Selected Table purchase_orders\n\nSchema: cols" ∈
      ([Msg.human "q", Msg.tool "Selected Table purchase_orders\n\nSchema: cols"] : List Msg) ∧
    ("Selected Table purchase_orders\n\nSchema: cols" ∈
      unique_tool_calls ([Msg.human "q",
        Msg.tool "Selected Table purchase_orders\n\nSchema: cols"] ++
        [Msg.tool "Selected Table purchase_orders\n\nSchema: cols"]) ↔
      "Selected Table purchase_orders\n\nSchema: cols" ∈
      unique_tool_calls [Msg.human "q",
        Msg.tool "Selected Table purchase_orders\n\nSchema: cols"]) :=
  ⟨by simp,
    (contextualiser_dedups_by_content
      [Msg.human "q", Msg.tool "Selected Table purchase_orders\n\nSchema: cols"]
      "Selected Table purchase_orders\n\nSchema: cols").2.2 (by simp)
      "Selected Table purchase_orders\n\nSchema: cols"⟩

/-! ## Claim C7: contextualiser monotonicity across iterations -/

/-- Split a character list at newline characters. -/
def splitLines : List Char → List (List Char)
  | [] => [[]]
  | c :: rest =>
    match splitLines rest with
    | [] => [[]]
    | line :: more => if c = '\n' then [] :: line :: more else (c :: line) :: more

/-- The "set of sentences/facts" of an output text: its lines. -/
def sentences (s : String) : List String :=
  (splitLines s.data).map (fun l => String.mk l)

/-- A selector model that proposes table A while the previous verdict was
sufficient (first iteration) and table B afterwards. -/
def c7_propose : State → List String :=
  fun s => if s.sufficient_info then ["A"] else ["B"]

/-- A contextualiser model (an unconstrained black box per spec section 6)
that answers "alpha" when shown one schema and "beta" when shown more. -/
def c7_summarize : String → List String → String :=
  fun _ inputs => if inputs.length == 1 then "alpha" else "beta"

def c7_iter1 : State :=
  sufficiency_iteration c7_propose (fun n => "sch" ++ n) c7_summarize
    (false, "need more") preContextState

def c7_iter2 : State :=
  sufficiency_iteration c7_propose (fun n => "sch" ++ n) c7_summarize
    (false, "still missing") c7_iter1

/-- Claim C7 is FALSE on the code: the contextualiser wholly replaces
`information` with a fresh model completion on every invocation; nothing in
the code carries the previous output forward (the monotonicity demand lives
only in the prompt text).  In this concrete session the loop genuinely
re-enters (`continue_sufficient_tables` returns "selector" after iteration
1), iteration 1 produced "alpha" and iteration 2 produced "beta", which is
not a superset of the iteration-1 sentences. -/
theorem contextualiser_not_monotonic_counterexample :
    continue_sufficient_tables c7_iter1 = "selector" ∧
    c7_iter1.information = "alpha" ∧
    c7_iter2.information = "beta" ∧
    ¬ (∀ sent ∈ sentences c7_iter1.information, sent ∈ sentences c7_iter2.information) := by
  refine ⟨by decide, by decide, by decide, fun h => ?_⟩
  exact absurd (h "alpha" (by decide)) (by decide)

/-- State `b` extends state `a`: the (append-only) message log of `b` is the
log of `a` plus a tail. -/
def msgExtends (a b : State) : Prop :=
  ∃ tail, b.messages = a.messages ++ tail

theorem msgExtends_trans {a b c : State} (h₁ : msgExtends a b) (h₂ : msgExtends b c) :
    msgExtends a c := by
  obtain ⟨t₁, h₁⟩ := h₁
  obtain ⟨t₂, h₂⟩ := h₂
  exact ⟨t₁ ++ t₂, by rw [h₂, h₁, List.append_assoc]⟩

theorem get_schema_tool_node_extends (schemaOf : String → String) (s : State) :
    msgExtends s (get_schema_tool_node schemaOf s) := by
  unfold get_schema_tool_node
  split
  · exact ⟨_, rfl⟩
  · exact ⟨[], (List.append_nil _).symm⟩

theorem sufficiency_iteration_extends (propose : State → List String)
    (schemaOf : String → String) (summarize : String → List String → String)
    (v : Bool × String) (s : State) :
    msgExtends s (sufficiency_iteration propose schemaOf summarize v s) := by
  have h₁ : msgExtends s (selector_node propose s) := ⟨_, rfl⟩
  have h₂ := get_schema_tool_node_extends schemaOf (selector_node propose s)
  have h₃ : msgExtends (get_schema_tool_node schemaOf (selector_node propose s))
      (contextualiser_node summarize (get_schema_tool_node schemaOf (selector_node propose s))) :=
    ⟨_, rfl⟩
  have h₄ : msgExtends
      (contextualiser_node summarize (get_schema_tool_node schemaOf (selector_node propose s)))
      (sufficiency_iteration propose schemaOf summarize v s) := ⟨_, rfl⟩
  exact msgExtends_trans (msgExtends_trans (msgExtends_trans h₁ h₂) h₃) h₄

/-- Claim C7 (amended): what the code does guarantee is monotonicity of the
contextualiser's *input* evidence: the message log only ever grows (every
loop pass extends it), so every deduplicated ToolMessage content presented
on iteration n is still presented on iteration n+1; the `information` field
itself is wholly replaced by the fresh completion each time (output
monotonicity is delegated to the LLM prompt, not enforced). -/
theorem contextualiser_input_monotone (summarize : String → List String → String)
    (msgs ext : List Msg) (c : String) (s : State)
    (propose : State → List String) (schemaOf : String → String)
    (v : Bool × String) :
    (c ∈ unique_tool_calls msgs → c ∈ unique_tool_calls (msgs ++ ext)) ∧
    (contextualiser_node summarize s).information =
      summarize s.question (unique_tool_calls s.messages) ∧
    msgExtends s (sufficiency_iteration propose schemaOf summarize v s) := by
  refine ⟨?_, rfl, sufficiency_iteration_extends propose schemaOf summarize v s⟩
  intro hc
  rw [unique_tool_calls, List.mem_dedup] at hc ⊢
  simp only [tool_contents, List.filter_append, List.map_append, List.mem_append]
  exact Or.inl (by simpa [tool_contents] using hc)

theorem contextualiser_input_monotone_witness :
    "schema row" ∈ unique_tool_calls [Msg.tool "schema row"] ∧
    "schema row" ∈ unique_tool_calls ([Msg.tool "schema row"] ++ [Msg.tool "another"]) :=
  ⟨by simp [unique_tool_calls, tool_contents, Msg.isTool, Msg.content],
    (contextualiser_input_monotone (fun _ _ => "out") [Msg.tool "schema row"]
      [Msg.tool "another"] "schema row" preContextState (fun _ => []) (fun _ => "")
      (true, "")).1
      (by simp [unique_tool_calls, tool_contents, Msg.isTool, Msg.content])⟩

/-! ## Query generation, execution, correction loop and chart stage
(lines 376-391, 432-467, 518-538, 596-622) -/

/-- The prompt messages built inside `query_gen` (lines 376-384):
`[user_question, AIMessage(information)]`, with the last log message
appended when (and only when) its content starts with "Error:"
(correction mode). -/
def query_gen_input (s : State) : List Msg :=
  let base := [Msg.human s.question, Msg.ai s.information]
  match s.messages.getLast? with
  | some last => if strStartsWith last.content "Error:" then base ++ [last] else base
  | none => base

/-- Node `query_gen` (lines 376-391): `gen` models `query_gen_llm` (returns
the SQL text and a reasoning trace).  The node logs
"Query: ...\n\nReasoning: ..." and replaces `query`; it does NOT touch
`max_retries`. -/
def query_gen_node (gen : List Msg → String × String) (s : State) : State :=
  let response := gen (query_gen_input s)
  { s with
    messages := s.messages ++
      [Msg.ai ("Query: " ++ response.1 ++ "\n\nReasoning: " ++ response.2)]
    query := response.1 }

/-- Node `get_query_execution` (lines 432-446): emits an empty `AIMessage`
carrying a `db_query_tool` tool call whose argument is `state["query"]`. -/
def get_query_execution_node (s : State) : State :=
  { s with messages := s.messages ++ [Msg.ai ""] }

/-- Node `query_execute` (the tool node over `db_query_tool`, line 558):
executes the pending tool call on `state["query"]` and logs the result as a
`ToolMessage` (`db.run_no_throw` never raises, so the fallback is not
involved here). -/
def query_execute_node (dbRun : String → String) (s : State) : State :=
  { s with messages := s.messages ++ [Msg.tool (db_query_tool dbRun s.query)] }

/-- Conditional-edge function `continue_query_gen` (lines 518-529).  Note:
nothing on the path into this edge ever modifies `max_retries`; the
`state["query"] = ""` assignment in the Python function mutates only the
local view and is not persisted by langgraph.  (Python indexes
`messages[-1]`, which presupposes a non-empty log; the `none` arm is
unreachable in any run.) -/
def continue_query_gen (s : State) : String :=
  match s.messages.getLast? with
  | none => "correct_query"
  | some last =>
    if s.max_retries < 0 then "failed"
    else if strStartsWith last.content "Error:" then "query_gen"
    else "correct_query"

/-- Node `chart_generation` (lines 448-461): `classify` models
`chart_generator_llm` (returns "line" / "bar" / anything else); `lineArgs` /
`barArgs` model the tool-bound models that extract series from the result
payload (tool_choice="required", so the response carries exactly the chart
tool call). -/
def chart_generation_node (classify : State → String)
    (lineArgs : State → List Int × List Int × String × String × String)
    (barArgs : State → List String × List Int × String × String × String)
    (s : State) : State :=
  let chart_type := classify s
  let response : Msg :=
    if chart_type = "line" then
      match lineArgs s with
      | (x, y, t, xl, yl) => Msg.aiChartLine x y t xl yl
    else if chart_type = "bar" then
      match barArgs s with
      | (c, v, t, xl, yl) => Msg.aiChartBar c v t xl yl
    else Msg.ai "Could not generate chart"
  { s with messages := s.messages ++ [response], chart_type := chart_type }

/-- Conditional-edge function `generate_chart` (lines 531-538). -/
def generate_chart (s : State) : String :=
  if s.chart_type = "line" then "line_graph_tool"
  else if s.chart_type = "bar" then "bar_graph_tool"
  else "None"

/-- The error message matplotlib raises when `ax.plot` receives series of
different lengths (the renderer collaborator's failure mode named by the
spec). -/
def mismatched_series_error : String :=
  "ValueError: x and y must have same first dimension"

/-- The `line_graph_tool` (lines 180-210): the renderer collaborator.
Mismatched series lengths raise (modelled as `Except.error`); otherwise the
markdown-embedded image is returned, with the base64 payload supplied by the
black-box `render`. -/
def line_graph_tool (render : List Int → List Int → String)
    (x y : List Int) (title _xLabel _yLabel : String) : Except String String :=
  if x.length ≠ y.length then
    Except.error mismatched_series_error
  else
    Except.ok ("![" ++ title ++ "](data:image/png;base64," ++ render x y ++ ")")

/-- The `bar_graph_tool` (lines 212-243), analogous. -/
def bar_graph_tool (render : List String → List Int → String)
    (categories : List String) (values : List Int)
    (title _xLabel _yLabel : String) : Except String String :=
  if categories.length ≠ values.length then
    Except.error mismatched_series_error
  else
    Except.ok ("![" ++ title ++ "](data:image/png;base64," ++ render categories values ++ ")")

/-- `handle_tool_error` (lines 117-128): the fallback installed by
`create_tool_node_with_fallback` converts the raised exception into a
`ToolMessage` instead of propagating it. -/
def handle_tool_error (err : String) (s : State) : State :=
  { s with messages := s.messages ++
      [Msg.tool ("Error: " ++ err ++ "\n please fix your mistakes.")] }

/-- The `line_graph_tool` node with fallback (line 559): executes the chart
tool call carried by the last message; an `Except.error` is absorbed by
`handle_tool_error`, never propagated. -/
def line_graph_node (render : List Int → List Int → String) (s : State) : State :=
  match s.messages.getLast? with
  | some (Msg.aiChartLine x y t xl yl) =>
      match line_graph_tool render x y t xl yl with
      | Except.ok md => { s with messages := s.messages ++ [Msg.tool md] }
      | Except.error e => handle_tool_error e s
  | _ => s

/-- The `bar_graph_tool` node with fallback (line 560), analogous. -/
def bar_graph_node (render : List String → List Int → String) (s : State) : State :=
  match s.messages.getLast? with
  | some (Msg.aiChartBar c v t xl yl) =>
      match bar_graph_tool render c v t xl yl with
      | Except.ok md => { s with messages := s.messages ++ [Msg.tool md] }
      | Except.error e => handle_tool_error e s
  | _ => s

/-- Node `final_answer` (lines 464-467): logs the query text as the closing
`AIMessage`. -/
def final_answer_node (s : State) : State :=
  { s with messages := s.messages ++ [Msg.ai s.query] }

/-- Graph nodes of the post-generation segment; `terminal` is langgraph's
`END`. -/
inductive Node where
  | query_gen
  | get_query_execution
  | query_execute
  | chart_generation
  | line_graph_tool
  | bar_graph_tool
  | final_answer
  | terminal
deriving Repr, DecidableEq

/-- The label map registered by
`workflow.add_conditional_edges("query_execute", continue_query_gen, ...)`
(lines 601-609): "query_gen" loops back to the generator, "correct_query"
proceeds to `chart_generation`, "failed" ends the run.  `continue_query_gen`
emits no other label; an unmapped label would make langgraph raise, which we
collapse to `terminal`. -/
def query_execute_edge_target (label : String) : Node :=
  if label = "query_gen" then Node.query_gen
  else if label = "correct_query" then Node.chart_generation
  else Node.terminal

/-- The label map registered for `chart_generation` (lines 610-618):
"None" routes to `END`. -/
def chart_generation_edge_target (label : String) : Node :=
  if label = "line_graph_tool" then Node.line_graph_tool
  else if label = "bar_graph_tool" then Node.bar_graph_tool
  else Node.terminal

/-- The black-box collaborators of the post-generation segment. -/
structure Oracles where
  gen : List Msg → String × String
  dbRun : String → String
  classify : State → String
  lineArgs : State → List Int × List Int × String × String × String
  barArgs : State → List String × List Int × String × String × String
  renderLine : List Int → List Int → String
  renderBar : List String → List Int → String

/-- One transition of the compiled graph on the post-generation segment,
following the `add_edge` / `add_conditional_edges` wiring of lines 596-622. -/
def step (o : Oracles) : Node → State → Node × State
  | Node.query_gen, s => (Node.get_query_execution, query_gen_node o.gen s)
  | Node.get_query_execution, s => (Node.query_execute, get_query_execution_node s)
  | Node.query_execute, s =>
      (query_execute_edge_target (continue_query_gen (query_execute_node o.dbRun s)),
       query_execute_node o.dbRun s)
  | Node.chart_generation, s =>
      (chart_generation_edge_target
        (generate_chart (chart_generation_node o.classify o.lineArgs o.barArgs s)),
       chart_generation_node o.classify o.lineArgs o.barArgs s)
  | Node.line_graph_tool, s => (Node.final_answer, line_graph_node o.renderLine s)
  | Node.bar_graph_tool, s => (Node.final_answer, bar_graph_node o.renderBar s)
  | Node.final_answer, s => (Node.terminal, final_answer_node s)
  | Node.terminal, s => (Node.terminal, s)

/-- The sequence of nodes visited in the next `fuel` transitions. -/
def runTrace (o : Oracles) : Nat → Node → State → List Node
  | 0, _, _ => []
  | fuel + 1, n, s =>
    if n = Node.terminal then []
    else (step o n s).1 :: runTrace o fuel (step o n s).1 (step o n s).2

/-- The node and state reached after `fuel` transitions. -/
def runState (o : Oracles) : Nat → Node → State → Node × State
  | 0, n, s => (n, s)
  | fuel + 1, n, s => runState o fuel (step o n s).1 (step o n s).2

theorem continue_query_gen_of_error (dbRun : String → String) (s : State)
    (h0 : 0 ≤ s.max_retries)
    (herr : strStartsWith (dbRun s.query) "Error:" = true) :
    continue_query_gen (query_execute_node dbRun s) = "query_gen" := by
  have hw := ((db_query_tool_contract dbRun s.query).1 herr).2
  have hneg : ¬ s.max_retries < 0 := by omega
  simp [continue_query_gen, query_execute_node, List.getLast?_concat, Msg.content, hw, hneg]

/-- Claim C1 is FALSE on the code (code bug): with the retry budget at its
initial value 1 and an executor whose every run reports failure, the
correction loop never takes the "failed" edge and never reaches the chart
stage — it cycles `query_gen → get_query_execution → query_execute` for any
number of steps.  Nothing in the loop (neither `query_gen` nor
`continue_query_gen`) ever decrements `max_retries`, so the guard
`max_retries < 0` that maps to the "failed" → END edge can never fire: the
pipeline does not terminate after the second failure, it re-enters the Query
Generator indefinitely. -/
theorem correction_loop_never_takes_failed_edge (o : Oracles)
    (herr : ∀ q, strStartsWith (o.dbRun q) "Error:" = true) :
    ∀ (fuel : Nat) (n : Node) (s : State), s.max_retries = 1 →
      (n = Node.query_gen ∨ n = Node.get_query_execution ∨ n = Node.query_execute) →
      (∀ m ∈ runTrace o fuel n s,
        m = Node.query_gen ∨ m = Node.get_query_execution ∨ m = Node.query_execute) ∧
      Node.terminal ∉ runTrace o fuel n s ∧
      Node.chart_generation ∉ runTrace o fuel n s := by
  intro fuel
  induction fuel with
  | zero =>
    intro n s _ _
    simp [runTrace]
  | succ k ih =>
    intro n s hmr hn
    have key : ∀ m ∈ runTrace o (k + 1) n s,
        m = Node.query_gen ∨ m = Node.get_query_execution ∨ m = Node.query_execute := by
      rcases hn with rfl | rfl | rfl
      · have hstep : step o Node.query_gen s =
            (Node.get_query_execution, query_gen_node o.gen s) := rfl
        have htr : runTrace o (k + 1) Node.query_gen s =
            Node.get_query_execution ::
              runTrace o k Node.get_query_execution (query_gen_node o.gen s) := by
          simp [runTrace, hstep]
        rw [htr]
        intro m hm
        rcases List.mem_cons.mp hm with rfl | hm'
        · exact Or.inr (Or.inl rfl)
        · exact (ih Node.get_query_execution (query_gen_node o.gen s) hmr
            (Or.inr (Or.inl rfl))).1 m hm'
      · have hstep : step o Node.get_query_execution s =
            (Node.query_execute, get_query_execution_node s) := rfl
        have htr : runTrace o (k + 1) Node.get_query_execution s =
            Node.query_execute ::
              runTrace o k Node.query_execute (get_query_execution_node s) := by
          simp [runTrace, hstep]
        rw [htr]
        intro m hm
        rcases List.mem_cons.mp hm with rfl | hm'
        · exact Or.inr (Or.inr rfl)
        · exact (ih Node.query_execute (get_query_execution_node s) hmr
            (Or.inr (Or.inr rfl))).1 m hm'
      · have hlab : continue_query_gen (query_execute_node o.dbRun s) = "query_gen" :=
          continue_query_gen_of_error o.dbRun s (by omega) (herr s.query)
        have hstep : step o Node.query_execute s =
            (Node.query_gen, query_execute_node o.dbRun s) := by
          show (query_execute_edge_target (continue_query_gen (query_execute_node o.dbRun s)),
            query_execute_node o.dbRun s) = _
          rw [hlab]
          rfl
        have htr : runTrace o (k + 1) Node.query_execute s =
            Node.query_gen ::
              runTrace o k Node.query_gen (query_execute_node o.dbRun s) := by
          simp [runTrace, hstep]
        rw [htr]
        intro m hm
        rcases List.mem_cons.mp hm with rfl | hm'
        · exact Or.inl rfl
        · exact (ih Node.query_gen (query_execute_node o.dbRun s) hmr (Or.inl rfl)).1 m hm'
    refine ⟨key, ?_, ?_⟩
    · intro hmem
      rcases key _ hmem with h | h | h <;> exact absurd h (by decide)
    · intro hmem
      rcases key _ hmem with h | h | h <;> exact absurd h (by decide)

/-- Collaborators for the failing-input run of claim C1: every execution
reports failure. -/
def errOracles : Oracles :=
  { gen := fun _ => ("SELECT 1", "retrying")
    dbRun := fun _ => "Error: unknown column"
    classify := fun _ => "none"
    lineArgs := fun _ => ([], [], "", "", "")
    barArgs := fun _ => ([], [], "", "", "")
    renderLine := fun _ _ => "b64"
    renderBar := fun _ _ => "b64" }

/-- A session state entering query generation with the initial budget. -/
def c1Start : State :=
  { question := "How many purchase orders were issued in 2023?"
    messages := [Msg.human "q", Msg.ai "brief"]
    information := "brief"
    sufficient_info := true
    max_retries := 1
    query := ""
    chart_type := ""
    answer := "" }

theorem errOracles_always_error : ∀ q, strStartsWith (errOracles.dbRun q) "Error:" = true :=
  fun _ => by
    show strStartsWith "Error: unknown column" "Error:" = true
    decide

theorem correction_loop_never_takes_failed_edge_witness :
    Node.terminal ∉ runTrace errOracles 8 Node.query_gen c1Start ∧
    Node.chart_generation ∉ runTrace errOracles 8 Node.query_gen c1Start :=
  ⟨(correction_loop_never_takes_failed_edge errOracles errOracles_always_error
      8 Node.query_gen c1Start rfl (Or.inl rfl)).2.1,
   (correction_loop_never_takes_failed_edge errOracles errOracles_always_error
      8 Node.query_gen c1Start rfl (Or.inl rfl)).2.2⟩

/-- The content of the last message of the log (Python `messages[-1].content`;
empty string when the log is empty). -/
def lastContent (s : State) : String :=
  (s.messages.getLast?.map Msg.content).getD ""

/-- Collaborators for the concrete claim-C3 run: the first generated query
fails, the corrected one succeeds. -/
def c3Oracles : Oracles :=
  { gen := fun input =>
      if input.length == 3 then ("SELECT fixed", "corrected the column name")
      else ("SELECT broken", "first attempt")
    dbRun := fun q =>
      if q = "SELECT broken" then "Error: unknown column 'po.date'" else "42 rows"
    classify := fun _ => "none"
    lineArgs := fun _ => ([], [], "", "", "")
    barArgs := fun _ => ([], [], "", "", "")
    renderLine := fun _ _ => "b64"
    renderBar := fun _ _ => "b64" }

/-- Claim C3 is FALSE on the code in its retry-counter part: in this run the
budget is 1 (not exhausted), the first execution fails (the log's last
message at re-entry carries the "Error:"-tagged payload), the loop does
re-enter the Query Generator — but `max_retries` is still 1 at re-entry: the
counter does not decrease by exactly 1, it does not decrease at all. -/
theorem correction_retry_counter_unchanged_counterexample :
    (runState c3Oracles 3 Node.query_gen c1Start).1 = Node.query_gen ∧
    strStartsWith (lastContent (runState c3Oracles 3 Node.query_gen c1Start).2) "Error:" = true ∧
    (runState c3Oracles 3 Node.query_gen c1Start).2.max_retries = 1 ∧
    ¬ (runState c3Oracles 3 Node.query_gen c1Start).2.max_retries = 1 - 1 := by
  refine ⟨by decide, by decide, by decide, by decide⟩

/-- Claim C3 (amended): for every session whose execution returns an
"Error:"-tagged payload while the retry budget is not exhausted
(`max_retries ≥ 0`), the edge routes back to the Query Generator, the
generator's input is the base prompt with the error payload appended
(correction mode), the retry counter is UNCHANGED by the re-entry (the
correction loop never decrements it), and the re-entered generator produces
a statement that is re-executed (`query_gen → get_query_execution →
query_execute`) before any chart step can run. -/
theorem correction_reentry_behaviour (o : Oracles) (s : State)
    (h0 : 0 ≤ s.max_retries)
    (herr : strStartsWith (o.dbRun s.query) "Error:" = true) :
    continue_query_gen (query_execute_node o.dbRun s) = "query_gen" ∧
    step o Node.query_execute s = (Node.query_gen, query_execute_node o.dbRun s) ∧
    query_gen_input (query_execute_node o.dbRun s) =
      [Msg.human s.question, Msg.ai s.information] ++
        [Msg.tool (db_query_tool o.dbRun s.query)] ∧
    (query_gen_node o.gen (query_execute_node o.dbRun s)).max_retries = s.max_retries ∧
    runTrace o 2 Node.query_gen (query_execute_node o.dbRun s) =
      [Node.get_query_execution, Node.query_execute] := by
  have hlab : continue_query_gen (query_execute_node o.dbRun s) = "query_gen" :=
    continue_query_gen_of_error o.dbRun s h0 herr
  have hw := ((db_query_tool_contract o.dbRun s.query).1 herr).2
  refine ⟨hlab, ?_, ?_, rfl, rfl⟩
  · show (query_execute_edge_target (continue_query_gen (query_execute_node o.dbRun s)),
      query_execute_node o.dbRun s) = _
    rw [hlab]
    rfl
  · simp [query_gen_input, query_execute_node, List.getLast?_concat, Msg.content, hw]

theorem correction_reentry_behaviour_witness :
    (0 : Int) ≤ c1Start.max_retries ∧
    strStartsWith (errOracles.dbRun c1Start.query) "Error:" = true ∧
    continue_query_gen (query_execute_node errOracles.dbRun c1Start) = "query_gen" :=
  ⟨by decide, by decide,
   (correction_reentry_behaviour errOracles c1Start (by decide) (by decide)).1⟩

/-- A state about to run the line-chart tool on mismatched series, whose log
still holds the unrendered textual result of the query execution. -/
def c8ResultState : State :=
  { question := "plot the monthly totals"
    messages := [Msg.human "plot the monthly totals",
                 Msg.tool "month total\n1 5\n2 9\n3 12",
                 Msg.aiChartLine [1, 2, 3] [5, 9] "totals" "month" "count"]
    information := "brief"
    sufficient_info := true
    max_retries := 1
    query := "SELECT month, total FROM t"
    chart_type := "line"
    answer := "" }

/-- Claim C8 is FALSE on the code in its fallback-content clause: in this
run the renderer failure is absorbed and the pipeline does reach final
answer assembly and `END`, but the final answer logged by `final_answer`
(sql_agent.py line 466) is `state["query"]` — the SQL statement text — not
the unrendered textual result of the execution, which sits earlier in the
log as the payload "month total\n1 5\n2 9\n3 12". -/
theorem chart_fallback_not_textual_result_counterexample :
    (runState errOracles 2 Node.line_graph_tool c8ResultState).1 = Node.terminal ∧
    (runState errOracles 2 Node.line_graph_tool c8ResultState).2.messages.getLast? =
      some (Msg.ai "SELECT month, total FROM t") ∧
    ¬ ((runState errOracles 2 Node.line_graph_tool c8ResultState).2.messages.getLast? =
      some (Msg.ai "month total\n1 5\n2 9\n3 12")) := by
  refine ⟨by decide, by decide, by decide⟩

/-- Claim C8 (amended): a chart-renderer failure on mismatched series
lengths (for both chart kinds) is absorbed by the tool node's fallback — the
raised error becomes an ordinary ToolMessage, the transition function stays
total and routes to `final_answer` and then `END`, and the final answer
emitted is the stored SQL statement text (`final_answer` logs
`state["query"]`), not an error and not chart markup; the unrendered textual
result itself remains available in the message log but is not what
`final_answer` emits. -/
theorem chart_render_failure_absorbed (o : Oracles) (s sb : State)
    (x y : List Int) (cats : List String) (vals : List Int) (t xl yl : String) :
    (x.length ≠ y.length →
      s.messages.getLast? = some (Msg.aiChartLine x y t xl yl) →
      step o Node.line_graph_tool s =
        (Node.final_answer, handle_tool_error mismatched_series_error s) ∧
      runTrace o 2 Node.line_graph_tool s = [Node.final_answer, Node.terminal] ∧
      (runState o 2 Node.line_graph_tool s).2.messages =
        s.messages ++
          [Msg.tool ("Error: " ++ mismatched_series_error ++ "\n please fix your mistakes."),
           Msg.ai s.query]) ∧
    (cats.length ≠ vals.length →
      sb.messages.getLast? = some (Msg.aiChartBar cats vals t xl yl) →
      step o Node.bar_graph_tool sb =
        (Node.final_answer, handle_tool_error mismatched_series_error sb) ∧
      runTrace o 2 Node.bar_graph_tool sb = [Node.final_answer, Node.terminal] ∧
      (runState o 2 Node.bar_graph_tool sb).2.messages =
        sb.messages ++
          [Msg.tool ("Error: " ++ mismatched_series_error ++ "\n please fix your mistakes."),
           Msg.ai sb.query]) := by
  constructor
  · intro hlen hlast
    have hnode : line_graph_node o.renderLine s = handle_tool_error mismatched_series_error s := by
      simp [line_graph_node, hlast, line_graph_tool, hlen]
    have hstep : step o Node.line_graph_tool s =
        (Node.final_answer, handle_tool_error mismatched_series_error s) := by
      show (Node.final_answer, line_graph_node o.renderLine s) = _
      rw [hnode]
    refine ⟨hstep, ?_, ?_⟩
    · simp [runTrace, hstep, step]
    · have : runState o 2 Node.line_graph_tool s =
          runState o 1 Node.final_answer (handle_tool_error mismatched_series_error s) := by
        simp [runState, hstep]
      rw [this]
      simp [runState, step, final_answer_node, handle_tool_error, List.append_assoc]
  · intro hlen hlast
    have hnode : bar_graph_node o.renderBar sb = handle_tool_error mismatched_series_error sb := by
      simp [bar_graph_node, hlast, bar_graph_tool, hlen]
    have hstep : step o Node.bar_graph_tool sb =
        (Node.final_answer, handle_tool_error mismatched_series_error sb) := by
      show (Node.final_answer, bar_graph_node o.renderBar sb) = _
      rw [hnode]
    refine ⟨hstep, ?_, ?_⟩
    · simp [runTrace, hstep, step]
    · have : runState o 2 Node.bar_graph_tool sb =
          runState o 1 Node.final_answer (handle_tool_error mismatched_series_error sb) := by
        simp [runState, hstep]
      rw [this]
      simp [runState, step, final_answer_node, handle_tool_error, List.append_assoc]

/-- A state about to run the line-chart tool on mismatched series. -/
def c8LineState : State :=
  { question := "plot the monthly totals"
    messages := [Msg.human "q", Msg.aiChartLine [1, 2, 3] [5, 9] "totals" "month" "count"]
    information := "brief"
    sufficient_info := true
    max_retries := 1
    query := "SELECT month, total FROM t"
    chart_type := "line"
    answer := "" }

theorem chart_render_failure_absorbed_witness :
    ([1, 2, 3] : List Int).length ≠ ([5, 9] : List Int).length ∧
    c8LineState.messages.getLast? =
      some (Msg.aiChartLine [1, 2, 3] [5, 9] "totals" "month" "count") ∧
    runTrace errOracles 2 Node.line_graph_tool c8LineState =
      [Node.final_answer, Node.terminal] :=
  ⟨by decide, by decide,
   ((chart_render_failure_absorbed errOracles c8LineState c8LineState
      [1, 2, 3] [5, 9] [] [] "totals" "month" "count").1 (by decide) (by decide)).2.1⟩

end SQLAgent
